import Mathlib

/-!
# Shallow embedding of the quantum-tracer-il PWM firmware

This file embeds the Arduino firmware variants of the repository:

* `Recorder` — `src/record/pwm_recorder.ino` (data-collection firmware);
* `Enhanced` — `src/enhanced_pwm_recorder.ino` (pulse-width based recorder);
* `Extended` — the control-capable firmware (`unnamed/part_001`,
  "Enhanced PWM Reader with Control Output for Remote Inference").

Modelling conventions:

* Arduino `float` arithmetic is modelled over the exact rationals `ℚ`
  (the claims are about exact values such as `0.0`, `±1.0`, `1500`,
  and about monotonicity, all of which are value-level statements);
  the literal `9.2` is the rational `46/5`, `2.2` is `11/5`.
* `unsigned long` timestamps are natural numbers; the unsigned wrapping
  subtraction `now - last` is `usub` (subtraction modulo `2^32`).
  Where the source guards with `now > last`, the result coincides with
  truncated natural subtraction.
* Serial output is modelled as a list of tagged messages (`SerialOut`);
  `Serial.print(x, 4)` is modelled as carrying the exact value `x`
  (the 4-decimal formatting is presentation only, except where a claim
  is about the printed text itself).
* Servo actuation (`servo_write(pin, pulse)`) is modelled as a list of
  `(pin, pulse)` pairs in emission order.
* Arduino `String` operations (`trim`, `startsWith`, `indexOf`,
  `substring`, `toFloat`) are modelled over `List Char`, following the
  Arduino core semantics.  `toFloat`/`atof` is modelled for optional
  whitespace, an optional sign, integer digits and a fractional part;
  exponent notation is not modelled (no claim exercises it).
-/

namespace QuantumTracer

/-- Arduino `constrain(amt, low, high)` macro:
`(amt < low) ? low : ((amt > high) ? high : amt)`, over rationals. -/
def constrainQ (amt low high : ℚ) : ℚ :=
  if amt < low then low else if high < amt then high else amt

/-- Unsigned 32-bit wrapping subtraction `a - b` on `unsigned long`
values (micros timestamps), i.e. subtraction modulo `2 ^ 32`. -/
def usub (a b : Nat) : Nat :=
  (a + 2 ^ 32 - b % 2 ^ 32) % 2 ^ 32

/-- One logic transition of an input pin, as seen by a `CHANGE`
interrupt handler: `digitalRead(pin) == HIGH` after the transition is a
rising edge, `LOW` a falling edge; the payload is `micros()` at entry. -/
inductive Edge where
  | rise (now : Nat)
  | fall (now : Nat)
deriving DecidableEq

/-- Per-channel shared timing state.  `lastRiseS` is the handler's
`static` last-rise variable, `lastRiseG` the `volatile` global
`*_lastRise`; the source keeps both and assigns them together on a
rising edge. -/
structure Chan where
  lastRiseS : Nat
  lastRiseG : Nat
  highTime : Nat
  period : Nat
  newCycle : Bool
deriving DecidableEq

/-- Startup state: all-zero globals, cleared flag. -/
def Chan.init : Chan :=
  { lastRiseS := 0, lastRiseG := 0, highTime := 0, period := 0, newCycle := false }

namespace Recorder

/-! ## `src/record/pwm_recorder.ino` -/

/-- `THROTTLE_MAX_DUTY` (throttle: 900 Hz PWM, 0–70 % duty). -/
def THROTTLE_MAX_DUTY : ℚ := 70

/-- `THROTTLE_MIN_DUTY`. -/
def THROTTLE_MIN_DUTY : ℚ := 0

/-- `STEERING_MIN_DUTY` (5 % = full left). -/
def STEERING_MIN_DUTY : ℚ := 5

/-- `STEERING_NEUTRAL_DUTY` (7 % = straight). -/
def STEERING_NEUTRAL_DUTY : ℚ := 7

/-- `STEERING_MAX_DUTY` (9.2 % = full right). -/
def STEERING_MAX_DUTY : ℚ := 46 / 5

/-- `handleThrottleInterrupt` of `pwm_recorder.ino`.  Rising edge:
guarded by `lastRiseTime > 0 && now > lastRiseTime`, sets `period` and
`newCycle`, then records `now` in both last-rise variables.  Falling
edge: guarded by `throttle_lastRise > 0 && now > throttle_lastRise`,
sets `highTime`.  Under the `now > last` guards the `now - last`
subtraction never wraps, so plain truncated subtraction is exact. -/
def handleThrottleInterrupt (s : Chan) : Edge → Chan
  | .rise now =>
      let s1 := if s.lastRiseS > 0 ∧ now > s.lastRiseS then
          { s with period := now - s.lastRiseS, newCycle := true }
        else s
      { s1 with lastRiseS := now, lastRiseG := now }
  | .fall now =>
      if s.lastRiseG > 0 ∧ now > s.lastRiseG then
        { s with highTime := now - s.lastRiseG }
      else s

/-- `handleSteeringInterrupt` of `pwm_recorder.ino`.  Rising edge:
guarded by `riseTime > 0`, sets `period` and `newCycle` (wrapping
subtraction), then records `now`.  Falling edge: **unguarded** in the
source — `steering_highTime = now - steering_lastRise;` executes even
when no rising edge has ever been recorded (`steering_lastRise == 0`). -/
def handleSteeringInterrupt (s : Chan) : Edge → Chan
  | .rise now =>
      let s1 := if s.lastRiseS > 0 then
          { s with period := usub now s.lastRiseS, newCycle := true }
        else s
      { s1 with lastRiseS := now, lastRiseG := now }
  | .fall now =>
      { s with highTime := usub now s.lastRiseG }

/-- Run the throttle edge-capture handler over a trace of edges from a
given state (the recorder's sampler only reads this state and clears
nothing, so the reachable ISR states are exactly the fold of the
handler over edge traces). -/
def runThrottle (s : Chan) (es : List Edge) : Chan :=
  es.foldl handleThrottleInterrupt s

/-- Number of rising edges in a trace. -/
def risesIn : List Edge → Nat
  | [] => 0
  | .rise _ :: es => risesIn es + 1
  | .fall _ :: es => risesIn es

/-- `calculateThrottleNormalized` of `pwm_recorder.ino`:
invalid-signal gate `pulseWidth < 50 || period < 500`, then
`constrain(duty / 70, 0, 1)`. -/
def calculateThrottleNormalized (pulseWidth period : Nat) : ℚ :=
  if pulseWidth < 50 ∨ period < 500 then 0
  else
    let dutyCycle : ℚ := ((pulseWidth : ℚ) / (period : ℚ)) * 100
    constrainQ (dutyCycle / THROTTLE_MAX_DUTY) 0 1

/-- `calculateSteeringNormalized` of `pwm_recorder.ino`:
invalid-signal gate `pulseWidth < 50 || period < 10000`, then
`constrain((duty - 7.0) / (9.2 - 7.0) * (2.0 / 2.2), -1, 1)`. -/
def calculateSteeringNormalized (pulseWidth period : Nat) : ℚ :=
  if pulseWidth < 50 ∨ period < 10000 then 0
  else
    let dutyCycle : ℚ := ((pulseWidth : ℚ) / (period : ℚ)) * 100
    constrainQ ((dutyCycle - STEERING_NEUTRAL_DUTY) /
        (STEERING_MAX_DUTY - STEERING_NEUTRAL_DUTY) * (2 / (11 / 5))) (-1) 1

/-- One serial message, tagged by schema. -/
inductive SerialOut where
  | dataLine (timestamp : Nat) (steerNorm throttleNorm : ℚ)
      (steerRaw throttleRaw steerPeriod throttlePeriod : Nat)
  | ctrlAck (steering throttle : ℚ)
  | modeAckAuto
  | modeAckManual
  | statusReply (autonomous : Bool) (steering throttle : ℚ)
deriving DecidableEq

/-- The sampling tick of `pwm_recorder.ino`'s `loop`: snapshot the four
timing fields (the flags are not consulted and not cleared), normalize,
and send exactly one `DATA` packet with the snapshot values. -/
def loopTick (steer throttle : Chan) (currentTime : Nat) : List SerialOut :=
  [ .dataLine currentTime
      (calculateSteeringNormalized steer.highTime steer.period)
      (calculateThrottleNormalized throttle.highTime throttle.period)
      steer.highTime throttle.highTime steer.period throttle.period ]

end Recorder

namespace Enhanced

/-! ## `src/enhanced_pwm_recorder.ino` (steering channel) -/

/-- `handleSteeringInterrupt` of `enhanced_pwm_recorder.ino`.  Rising
edge guarded by `lastRiseTime > 0`; falling edge guarded by
`steering_lastRise > 0`, sets `pulseWidth` (modelled in `highTime`)
and the `newData` flag (modelled in `newCycle`). -/
def handleSteeringInterrupt (s : Chan) : Edge → Chan
  | .rise now =>
      let s1 := if s.lastRiseS > 0 then
          { s with period := usub now s.lastRiseS }
        else s
      { s1 with lastRiseS := now, lastRiseG := now }
  | .fall now =>
      if s.lastRiseG > 0 then
        { s with highTime := usub now s.lastRiseG, newCycle := true }
      else s

end Enhanced

/-! ## Arduino `String` operations (Arduino core semantics, over `List Char`) -/

/-- `isspace` characters removed by Arduino `String::trim`. -/
def isWsA (c : Char) : Bool :=
  c = ' ' ∨ c = '\t' ∨ c = '\n' ∨ c = '\x0b' ∨ c = '\x0c' ∨ c = '\r'

/-- Arduino `String::trim()`: strip leading and trailing whitespace. -/
def trimA (s : List Char) : List Char :=
  ((s.dropWhile isWsA).reverse.dropWhile isWsA).reverse

/-- Arduino `String::indexOf(ch, fromIndex)`: index of the first
occurrence of `ch` at position `≥ fromIndex`, `-1` if none. -/
def indexOfChA (c : Char) (fromIndex : Nat) (s : List Char) : Int :=
  match (s.drop fromIndex).findIdx? (fun x => x = c) with
  | some i => ((fromIndex + i : Nat) : Int)
  | none => -1

/-- Index of the first position where `needle` occurs as a contiguous
run in `s` (`strstr`), `none` if it does not occur. -/
def firstMatchIdx (needle : List Char) : List Char → Option Nat
  | [] => if needle = [] then some 0 else none
  | c :: rest =>
      if needle.isPrefixOf (c :: rest) then some 0
      else (firstMatchIdx needle rest).map (· + 1)

/-- Arduino `String::indexOf(str)`: first occurrence index or `-1`. -/
def indexOfStrA (needle s : List Char) : Int :=
  match firstMatchIdx needle s with
  | some i => (i : Int)
  | none => -1

/-- Arduino `String::substring(left, right)`: swaps the bounds if
`left > right`, clamps `right` to the length, and yields the characters
of positions `[left, right)`. -/
def substringA (s : List Char) (left right : Nat) : List Char :=
  let l := if left > right then right else left
  let r := if left > right then left else right
  (s.take r).drop l

/-- Digit run to a natural number. -/
def digitsVal (ds : List Char) : Nat :=
  ds.foldl (fun acc c => acc * 10 + (c.toNat - '0'.toNat)) 0

/-- Arduino `String::toFloat()` (via `atof`): skip leading whitespace,
optional sign, integer digits, optional `.` and fraction digits; `0`
when no digits are found.  Exponent notation is not modelled (no
command in the repository uses it). -/
def toFloatA (s : List Char) : ℚ :=
  let s1 := s.dropWhile isWsA
  let sign : ℚ := if s1.headD ' ' = '-' then -1 else 1
  let s2 := if s1.headD ' ' = '-' ∨ s1.headD ' ' = '+' then s1.tail else s1
  let intDigits := s2.takeWhile fun c => c.isDigit
  let s3 := s2.drop intDigits.length
  let fracDigits :=
    if s3.headD ' ' = '.' then s3.tail.takeWhile (fun c => c.isDigit) else []
  if intDigits = [] ∧ fracDigits = [] then 0
  else
    sign * ((digitsVal intDigits : ℚ) +
      (digitsVal fracDigits : ℚ) / (10 ^ fracDigits.length : ℚ))

namespace Extended

/-! ## Control-capable firmware (`unnamed/part_001`) -/

/-- `THROTTLE_OUTPUT_PIN` (pin 9). -/
def THROTTLE_OUTPUT_PIN : Nat := 9

/-- `STEERING_OUTPUT_PIN` (pin 10). -/
def STEERING_OUTPUT_PIN : Nat := 10

/-- `SERVO_MIN_PULSE` (1 ms). -/
def SERVO_MIN_PULSE : Int := 1000

/-- `SERVO_MAX_PULSE` (2 ms). -/
def SERVO_MAX_PULSE : Int := 2000

/-- `SERVO_NEUTRAL_PULSE` (1.5 ms). -/
def SERVO_NEUTRAL_PULSE : Int := 1500

/-- Arduino `map(x, in_min, in_max, out_min, out_max)` on `long`, with
C++ truncating division. -/
def arduinoMap (x inMin inMax outMin outMax : Int) : Int :=
  Int.tdiv ((x - inMin) * (outMax - outMin)) (inMax - inMin) + outMin

/-- C cast of a `float` to an integer type: truncation toward zero. -/
def ratTrunc (q : ℚ) : Int :=
  Int.tdiv q.num (q.den : Int)

/-- The control-output state of the extended firmware: the
`autonomous_mode` flag and the two target floats. -/
structure CtrlState where
  autonomous_mode : Bool
  target_steering : ℚ
  target_throttle : ℚ
deriving DecidableEq

/-- Startup control state: manual mode, neutral targets. -/
def CtrlState.init : CtrlState :=
  { autonomous_mode := false, target_steering := 0, target_throttle := 0 }

/-- One `servo_write(pin, pulse_width)` actuation, in emission order. -/
abbrev ServoWrite := Nat × Int

/-- `updateControlOutputs`: convert the targets to servo pulse widths
with `map` (the float targets are first scaled by 1000 and truncated to
integers by the C conversion) and emit one pulse per actuator pin,
steering pin first. -/
def updateControlOutputs (st : CtrlState) : List ServoWrite :=
  let steering_pulse :=
    arduinoMap (ratTrunc (st.target_steering * 1000)) (-1000) 1000
      SERVO_MIN_PULSE SERVO_MAX_PULSE
  let throttle_pulse :=
    arduinoMap (ratTrunc (st.target_throttle * 1000)) 0 1000
      SERVO_NEUTRAL_PULSE SERVO_MAX_PULSE
  [(STEERING_OUTPUT_PIN, steering_pulse), (THROTTLE_OUTPUT_PIN, throttle_pulse)]

/-- `calculateThrottleNormalized` of the extended firmware: gate
`period == 0`, then `constrain((duty - 0.0) / (70.0 - 0.0), 0, 1)`. -/
def calculateThrottleNormalized (pulseWidth period : Nat) : ℚ :=
  if period = 0 then 0
  else
    let dutyPercent : ℚ := ((pulseWidth : ℚ) / (period : ℚ)) * 100
    constrainQ ((dutyPercent - 0) / (70 - 0)) 0 1

/-- `calculateSteeringNormalized` of the extended firmware: gate
`period == 0`, then
`constrain((duty - 7.0) / ((9.2 - 5.0) / 2.0), -1, 1)`. -/
def calculateSteeringNormalized (pulseWidth period : Nat) : ℚ :=
  if period = 0 then 0
  else
    let dutyPercent : ℚ := ((pulseWidth : ℚ) / (period : ℚ)) * 100
    constrainQ ((dutyPercent - 7) / ((46 / 5 - 5) / 2)) (-1) 1

/-- Result of processing one inbound line: the successor control state,
the serial replies written, and the servo pulses emitted synchronously
during command processing. -/
structure CmdResult where
  state : CtrlState
  replies : List Recorder.SerialOut
  writes : List ServoWrite
deriving DecidableEq

/-- The classification body of `processControlCommand`, applied to the
already-`trim`med command: classify by prefix — `CTRL,` (parse two
comma-bounded floats; note the second delimiter search starts *after*
the comma that separates the two values, so it only succeeds when yet
another comma follows the throttle field), `MODE,` (substring search
for `AUTO` / `MANUAL`), `STATUS`.  Anything else falls through with no
reply and no state change. -/
def processTrimmedCommand (st : CtrlState) (command : List Char) : CmdResult :=
  if ("CTRL,".toList).isPrefixOf command then
    let firstComma := indexOfChA ',' 5 command
    let secondComma := indexOfChA ',' (firstComma + 1).toNat command
    if firstComma > 0 ∧ secondComma > 0 then
      let steering := toFloatA (substringA command 5 firstComma.toNat)
      let throttle :=
        toFloatA (substringA command (firstComma.toNat + 1) secondComma.toNat)
      let st' : CtrlState :=
        { autonomous_mode := true
          target_steering := constrainQ steering (-1) 1
          target_throttle := constrainQ throttle 0 1 }
      { state := st'
        replies := [.ctrlAck st'.target_steering st'.target_throttle]
        writes := [] }
    else
      { state := st, replies := [], writes := [] }
  else if ("MODE,".toList).isPrefixOf command then
    if indexOfStrA ("AUTO".toList) command > 0 then
      { state := { st with autonomous_mode := true }
        replies := [.modeAckAuto]
        writes := [] }
    else if indexOfStrA ("MANUAL".toList) command > 0 then
      let st' : CtrlState :=
        { autonomous_mode := false, target_steering := 0, target_throttle := 0 }
      { state := st'
        replies := [.modeAckManual]
        writes := updateControlOutputs st' }
    else
      { state := st, replies := [], writes := [] }
  else if ("STATUS".toList).isPrefixOf command then
    { state := st
      replies := [.statusReply st.autonomous_mode st.target_steering st.target_throttle]
      writes := [] }
  else
    { state := st, replies := [], writes := [] }

/-- `processControlCommand` of the extended firmware: `command.trim()`
(in place), then the prefix classification of `processTrimmedCommand`. -/
def processControlCommand (st : CtrlState) (line : List Char) : CmdResult :=
  processTrimmedCommand st (trimA line)

/-- Atomic snapshot of the shared timing state of both channels as the
extended firmware's sampling tick reads it (values plus `newCycle`
flags). -/
structure IsrSnapshot where
  sHigh : Nat
  sPer : Nat
  tHigh : Nat
  tPer : Nat
  sNew : Bool
  tNew : Bool
deriving DecidableEq

/-- The sampling tick of the extended firmware's `loop`: the report
variables start at zero, are overwritten from the shared state only
when the channel's `newCycle` flag is set (which also clears the flag),
one `DATA` packet is always sent, and the control outputs are updated
only in autonomous mode. -/
def loopTick (isr : IsrSnapshot) (ctrl : CtrlState) (currentTime : Nat) :
    List Recorder.SerialOut × IsrSnapshot × List ServoWrite :=
  let steerData :=
    if isr.sNew then (calculateSteeringNormalized isr.sHigh isr.sPer, isr.sHigh, isr.sPer)
    else ((0 : ℚ), 0, 0)
  let throttleData :=
    if isr.tNew then (calculateThrottleNormalized isr.tHigh isr.tPer, isr.tHigh, isr.tPer)
    else ((0 : ℚ), 0, 0)
  let packet := Recorder.SerialOut.dataLine currentTime
      steerData.1 throttleData.1 steerData.2.1 throttleData.2.1
      steerData.2.2 throttleData.2.2
  let writes := if ctrl.autonomous_mode then updateControlOutputs ctrl else []
  ([packet], { isr with sNew := false, tNew := false }, writes)

end Extended

/-! ## Helper lemmas -/

/-- `constrain` is monotone in its first argument once the bounds are
ordered. -/
lemma constrainQ_le_constrainQ {x y lo hi : ℚ} (hb : lo ≤ hi) (h : x ≤ y) :
    constrainQ x lo hi ≤ constrainQ y lo hi := by
  unfold constrainQ
  split_ifs <;> linarith

/-- `constrain` clamps to the upper bound above it. -/
lemma constrainQ_eq_hi {x lo hi : ℚ} (hb : lo ≤ hi) (h : hi < x) :
    constrainQ x lo hi = hi := by
  unfold constrainQ
  split_ifs <;> linarith

/-- A falling edge never touches the throttle channel's `period`,
`newCycle` flag or last-rise variables (`pwm_recorder.ino`). -/
lemma throttle_fall_preserves (s : Chan) (now : Nat) :
    (Recorder.handleThrottleInterrupt s (.fall now)).period = s.period ∧
    (Recorder.handleThrottleInterrupt s (.fall now)).newCycle = s.newCycle ∧
    (Recorder.handleThrottleInterrupt s (.fall now)).lastRiseS = s.lastRiseS ∧
    (Recorder.handleThrottleInterrupt s (.fall now)).lastRiseG = s.lastRiseG := by
  simp only [Recorder.handleThrottleInterrupt]
  split <;> exact ⟨rfl, rfl, rfl, rfl⟩

/-- Over a trace with no rising edge, the throttle handler preserves
`period` and `newCycle`. -/
lemma runThrottle_no_rise_preserves (es : List Edge) :
    ∀ s : Chan, Recorder.risesIn es = 0 →
      (Recorder.runThrottle s es).period = s.period ∧
      (Recorder.runThrottle s es).newCycle = s.newCycle := by
  induction es with
  | nil => exact fun s _ => ⟨rfl, rfl⟩
  | cons e rest ih =>
      intro s h
      cases e with
      | rise now => simp [Recorder.risesIn] at h
      | fall now =>
          have h' : Recorder.risesIn rest = 0 := h
          have step := throttle_fall_preserves s now
          have tail := ih (Recorder.handleThrottleInterrupt s (.fall now)) h'
          exact ⟨tail.1.trans step.1, tail.2.trans step.2.1⟩

/-- Before any rising edge, the throttle handler is inert: a trace of
falling edges leaves a state with `lastRiseG = 0` untouched. -/
lemma runThrottle_no_rise_fixed (es : List Edge) :
    ∀ s : Chan, Recorder.risesIn es = 0 → s.lastRiseG = 0 →
      Recorder.runThrottle s es = s := by
  induction es with
  | nil => exact fun s _ _ => rfl
  | cons e rest ih =>
      intro s h h0
      cases e with
      | rise now => simp [Recorder.risesIn] at h
      | fall now =>
          have h' : Recorder.risesIn rest = 0 := h
          have step : Recorder.handleThrottleInterrupt s (.fall now) = s := by
            simp [Recorder.handleThrottleInterrupt, h0]
          calc Recorder.runThrottle (Recorder.handleThrottleInterrupt s (.fall now)) rest
              = Recorder.runThrottle s rest := by rw [step]
            _ = s := ih s h' h0

/-- With at most one rising edge, `period` and `newCycle` keep their
startup values. -/
lemma runThrottle_le_one_rise (es : List Edge) :
    ∀ s : Chan, Recorder.risesIn es ≤ 1 → s.lastRiseS = 0 →
      s.period = 0 → s.newCycle = false →
      (Recorder.runThrottle s es).period = 0 ∧
      (Recorder.runThrottle s es).newCycle = false := by
  induction es with
  | nil => exact fun s _ _ h2 h3 => ⟨h2, h3⟩
  | cons e rest ih =>
      intro s h h1 h2 h3
      cases e with
      | fall now =>
          have h' : Recorder.risesIn rest ≤ 1 := h
          have step := throttle_fall_preserves s now
          exact ih (Recorder.handleThrottleInterrupt s (.fall now)) h'
            (step.2.2.1.trans h1) (step.1.trans h2) (step.2.1.trans h3)
      | rise now =>
          have h' : Recorder.risesIn rest = 0 := by
            simp only [Recorder.risesIn] at h
            omega
          have step : Recorder.handleThrottleInterrupt s (.rise now) =
              { s with lastRiseS := now, lastRiseG := now } := by
            simp [Recorder.handleThrottleInterrupt, h1]
          have goaleq : Recorder.runThrottle s (.rise now :: rest) =
              Recorder.runThrottle
                (Recorder.handleThrottleInterrupt s (.rise now)) rest := rfl
          rw [goaleq, step]
          have tail := runThrottle_no_rise_preserves rest
            { s with lastRiseS := now, lastRiseG := now } h'
          exact ⟨tail.1.trans h2, tail.2.trans h3⟩

/-! ## Claims -/

/-- C1: in the extended firmware, the inbound line `CTRL,0.5,0.3` *is*
a `CTRL,`-prefixed command, yet `processControlCommand` emits no
acknowledgment, stores nothing and leaves the mode unchanged: the
second delimiter search (`indexOf(',', firstComma + 1)`) looks for a
comma *after* the throttle field and finds none, so the guard
`firstComma > 0 && secondComma > 0` fails and the documented command is
silently dropped. -/
theorem C1_ctrl_line_silently_dropped :
    ("CTRL,".toList).isPrefixOf (trimA ("CTRL,0.5,0.3".toList)) = true ∧
    Extended.processControlCommand Extended.CtrlState.init ("CTRL,0.5,0.3".toList) =
      { state := Extended.CtrlState.init, replies := [], writes := [] } :=
  ⟨by decide, rfl⟩

/-- C2: a falling edge before any rising edge.  The steering handler of
`pwm_recorder.ino` *does* store a spurious measurement
(`highTime = now - 0 = now`, here 5 µs), because its falling-edge
branch is unguarded; by contrast the throttle handler of the same file
and the steering handler of `enhanced_pwm_recorder.ino` leave the state
untouched, as the claim demands of every handler. -/
theorem C2_recorder_steering_fall_first_stores_spurious_highTime :
    (Recorder.handleSteeringInterrupt Chan.init (Edge.fall 5)).highTime = 5 ∧
    Chan.init.highTime = 0 ∧
    Recorder.handleThrottleInterrupt Chan.init (Edge.fall 5) = Chan.init ∧
    Enhanced.handleSteeringInterrupt Chan.init (Edge.fall 5) = Chan.init := by
  refine ⟨by decide, rfl, by decide, by decide⟩

/-- C3 counterexample: the steering input `pulseWidth = 400`,
`period = 10000` passes the validity gate (`400 ≥ 50`,
`10000 ≥ 10000`), its duty cycle is 4 % — strictly below the steering
minimum duty floor of 5 % — yet the Normalizer returns the clamped
computed value `-1`, not the neutral value `0`. -/
theorem C3_low_duty_not_neutral_counterexample :
    ((400 : ℚ) / 10000) * 100 < Recorder.STEERING_MIN_DUTY ∧
    (¬ (400 < 50 ∨ 10000 < 10000)) ∧
    Recorder.calculateSteeringNormalized 400 10000 = -1 ∧
    (-1 : ℚ) ≠ 0 := by
  refine ⟨by norm_num [Recorder.STEERING_MIN_DUTY], by omega, ?_, by norm_num⟩
  norm_num [Recorder.calculateSteeringNormalized, constrainQ,
    Recorder.STEERING_NEUTRAL_DUTY, Recorder.STEERING_MAX_DUTY]

/-- C3 amended: any input failing a channel's validity gate yields that
channel's neutral value `0` (recorder firmware: `highTime < 50` or
`period` below the channel floor; extended firmware: `period == 0`);
but a gate-passing input whose duty cycle is below the steering minimum
duty is mapped by the computed-and-clamped formula, not to neutral. -/
theorem C3_validity_gate_yields_neutral :
    (∀ pw per : Nat, pw < 50 ∨ per < 500 →
        Recorder.calculateThrottleNormalized pw per = 0) ∧
    (∀ pw per : Nat, pw < 50 ∨ per < 10000 →
        Recorder.calculateSteeringNormalized pw per = 0) ∧
    (∀ pw : Nat, Extended.calculateThrottleNormalized pw 0 = 0 ∧
        Extended.calculateSteeringNormalized pw 0 = 0) := by
  refine ⟨fun pw per h => ?_, fun pw per h => ?_, fun pw => ⟨?_, ?_⟩⟩
  · unfold Recorder.calculateThrottleNormalized
    rw [if_pos h]
  · unfold Recorder.calculateSteeringNormalized
    rw [if_pos h]
  · simp [Extended.calculateThrottleNormalized]
  · simp [Extended.calculateSteeringNormalized]

/-- Witness for C3 amended, at concrete gate-failing inputs. -/
theorem C3_validity_gate_yields_neutral_witness :
    Recorder.calculateThrottleNormalized 10 1000 = 0 ∧
    Recorder.calculateSteeringNormalized 60 9999 = 0 ∧
    Extended.calculateThrottleNormalized 123 0 = 0 ∧
    Extended.calculateSteeringNormalized 123 0 = 0 :=
  ⟨C3_validity_gate_yields_neutral.1 10 1000 (Or.inl (by omega)),
   C3_validity_gate_yields_neutral.2.1 60 9999 (Or.inr (by omega)),
   (C3_validity_gate_yields_neutral.2.2 123).1,
   (C3_validity_gate_yields_neutral.2.2 123).2⟩

/-- C4: processing `MODE,MANUAL` in AUTONOMOUS mode with a nonzero
target resets the target to `(0, 0)`, switches the mode flag to MANUAL,
acknowledges with `MODE_ACK,MANUAL`, and the next Output Generator
actuation — performed synchronously by this very branch — writes the
neutral 1500 µs pulse to both actuator pins. -/
theorem C4_mode_manual_resets_target_to_neutral :
    ∀ st : Extended.CtrlState, st.autonomous_mode = true →
      ¬ (st.target_steering = 0 ∧ st.target_throttle = 0) →
      Extended.processControlCommand st ("MODE,MANUAL".toList) =
        { state := { autonomous_mode := false, target_steering := 0,
                     target_throttle := 0 },
          replies := [.modeAckManual],
          writes := [(Extended.STEERING_OUTPUT_PIN, Extended.SERVO_NEUTRAL_PULSE),
                     (Extended.THROTTLE_OUTPUT_PIN, Extended.SERVO_NEUTRAL_PULSE)] } := by
  intro st _ _
  have h1 : Extended.processControlCommand st ("MODE,MANUAL".toList) =
      { state := ⟨false, 0, 0⟩, replies := [.modeAckManual],
        writes := Extended.updateControlOutputs ⟨false, 0, 0⟩ } := rfl
  have h2 : Extended.updateControlOutputs ⟨false, 0, 0⟩ =
      [(Extended.STEERING_OUTPUT_PIN, Extended.SERVO_NEUTRAL_PULSE),
       (Extended.THROTTLE_OUTPUT_PIN, Extended.SERVO_NEUTRAL_PULSE)] := by
    norm_num [Extended.updateControlOutputs, Extended.arduinoMap, Extended.ratTrunc,
      Extended.SERVO_MIN_PULSE, Extended.SERVO_MAX_PULSE, Extended.SERVO_NEUTRAL_PULSE]
    decide
  rw [h1, h2]

/-- Witness for C4 at the autonomous state with target `(0.5, 0.3)`. -/
theorem C4_mode_manual_resets_target_to_neutral_witness :
    Extended.processControlCommand
        { autonomous_mode := true, target_steering := 1 / 2,
          target_throttle := 3 / 10 } ("MODE,MANUAL".toList) =
      { state := { autonomous_mode := false, target_steering := 0,
                   target_throttle := 0 },
        replies := [.modeAckManual],
        writes := [(Extended.STEERING_OUTPUT_PIN, Extended.SERVO_NEUTRAL_PULSE),
                   (Extended.THROTTLE_OUTPUT_PIN, Extended.SERVO_NEUTRAL_PULSE)] } :=
  C4_mode_manual_resets_target_to_neutral
    { autonomous_mode := true, target_steering := 1 / 2, target_throttle := 3 / 10 }
    rfl (by norm_num)

/-- C5 counterexample: a sampling tick of the extended firmware with no
new edge data (`newCycle` flags clear) but nonzero previously captured
values (steering 1400/20000, throttle 350/1111) emits a `DATA` line of
zeros — the stale captured values are *not* reported. -/
theorem C5_stale_values_replaced_by_zeros_counterexample :
    (Extended.loopTick ⟨1400, 20000, 350, 1111, false, false⟩
        Extended.CtrlState.init 99).1 =
      [.dataLine 99 0 0 0 0 0 0] ∧
    (Extended.loopTick ⟨1400, 20000, 350, 1111, false, false⟩
        Extended.CtrlState.init 99).1 ≠
      [.dataLine 99 (Extended.calculateSteeringNormalized 1400 20000)
        (Extended.calculateThrottleNormalized 350 1111) 1400 350 20000 1111] := by
  refine ⟨rfl, ?_⟩
  intro h
  have h' : [Recorder.SerialOut.dataLine 99 0 0 0 0 0 0] =
      [Recorder.SerialOut.dataLine 99
        (Extended.calculateSteeringNormalized 1400 20000)
        (Extended.calculateThrottleNormalized 350 1111) 1400 350 20000 1111] := h
  simp at h'

/-- C5 amended: both firmwares emit exactly one fixed-schema `DATA`
line per sampling tick whether or not new data arrived.  The recorder
firmware reports the previously captured (stale) values; the extended
firmware instead reports zeros for a channel whose `newCycle` flag is
clear. -/
theorem C5_one_data_line_per_tick :
    (∀ steer throttle : Chan, ∀ now,
        Recorder.loopTick steer throttle now =
          [.dataLine now
            (Recorder.calculateSteeringNormalized steer.highTime steer.period)
            (Recorder.calculateThrottleNormalized throttle.highTime throttle.period)
            steer.highTime throttle.highTime steer.period throttle.period]) ∧
    (∀ isr : Extended.IsrSnapshot, ∀ ctrl : Extended.CtrlState, ∀ now,
        ((Extended.loopTick isr ctrl now).1).length = 1) ∧
    (∀ isr : Extended.IsrSnapshot, ∀ ctrl : Extended.CtrlState, ∀ now,
        isr.sNew = false → isr.tNew = false →
        (Extended.loopTick isr ctrl now).1 = [.dataLine now 0 0 0 0 0 0]) := by
  refine ⟨fun _ _ _ => rfl, fun _ _ _ => rfl, fun isr ctrl now h1 h2 => ?_⟩
  simp [Extended.loopTick, h1, h2]

/-- Witness for C5 amended, at a concrete no-new-data snapshot. -/
theorem C5_one_data_line_per_tick_witness :
    (Extended.loopTick ⟨7, 8, 9, 10, false, false⟩ Extended.CtrlState.init 42).1 =
      [.dataLine 42 0 0 0 0 0 0] :=
  C5_one_data_line_per_tick.2.2 ⟨7, 8, 9, 10, false, false⟩
    Extended.CtrlState.init 42 rfl rfl

/-- C6: steering normalization at the calibrated points, for valid
inputs of period 10000 µs (50 Hz).  Neutral (7 % duty, 700 µs) maps to
exactly 0 in both variants, as claimed; but at the calibrated minimum
(5 % duty, 500 µs) `pwm_recorder.ino` returns `-100/121 ≈ -0.826`, not
`-1`, and at the calibrated maximum (9.2 % duty, 920 µs) it returns
`10/11 ≈ 0.909`, not `1` — contradicting the mapping stated in its own
comment.  The extended firmware returns `-20/21 ≈ -0.952` at 5 % (not
`-1`), though it does saturate to `1` at 9.2 %. -/
theorem C6_steering_extremes_not_saturated :
    Recorder.calculateSteeringNormalized 700 10000 = 0 ∧
    Recorder.calculateSteeringNormalized 500 10000 = -100 / 121 ∧
    (-100 / 121 : ℚ) ≠ -1 ∧
    Recorder.calculateSteeringNormalized 920 10000 = 10 / 11 ∧
    (10 / 11 : ℚ) ≠ 1 ∧
    Extended.calculateSteeringNormalized 700 10000 = 0 ∧
    Extended.calculateSteeringNormalized 500 10000 = -20 / 21 ∧
    (-20 / 21 : ℚ) ≠ -1 ∧
    Extended.calculateSteeringNormalized 920 10000 = 1 := by
  refine ⟨?_, ?_, by norm_num, ?_, by norm_num, ?_, ?_, by norm_num, ?_⟩ <;>
    norm_num [Recorder.calculateSteeringNormalized,
      Extended.calculateSteeringNormalized, constrainQ,
      Recorder.STEERING_NEUTRAL_DUTY, Recorder.STEERING_MAX_DUTY]

/-- C7: throttle normalization of the recorder firmware is monotone
non-decreasing in duty cycle over valid inputs, and returns exactly 1
for every valid input whose duty cycle exceeds `maxDutyPercent = 70`. -/
theorem C7_throttle_monotone_saturating :
    (∀ pw1 per1 pw2 per2 : Nat, 50 ≤ pw1 → 500 ≤ per1 → 50 ≤ pw2 → 500 ≤ per2 →
        ((pw1 : ℚ) / per1) * 100 ≤ ((pw2 : ℚ) / per2) * 100 →
        Recorder.calculateThrottleNormalized pw1 per1 ≤
          Recorder.calculateThrottleNormalized pw2 per2) ∧
    (∀ pw per : Nat, 50 ≤ pw → 500 ≤ per → 70 < ((pw : ℚ) / per) * 100 →
        Recorder.calculateThrottleNormalized pw per = 1) := by
  constructor
  · intro pw1 per1 pw2 per2 a1 a2 a3 a4 hd
    have n1 : ¬ (pw1 < 50 ∨ per1 < 500) := by omega
    have n2 : ¬ (pw2 < 50 ∨ per2 < 500) := by omega
    unfold Recorder.calculateThrottleNormalized
    rw [if_neg n1, if_neg n2]
    exact constrainQ_le_constrainQ (by norm_num)
      (by unfold Recorder.THROTTLE_MAX_DUTY; linarith)
  · intro pw per a1 a2 hd
    have n1 : ¬ (pw < 50 ∨ per < 500) := by omega
    unfold Recorder.calculateThrottleNormalized
    rw [if_neg n1]
    exact constrainQ_eq_hi (by norm_num)
      (by unfold Recorder.THROTTLE_MAX_DUTY; linarith)

/-- Witness for C7: duty 10 % ≤ duty 20 % on period 500 µs, and
saturation at duty 80 %. -/
theorem C7_throttle_monotone_saturating_witness :
    Recorder.calculateThrottleNormalized 50 500 ≤
      Recorder.calculateThrottleNormalized 100 500 ∧
    Recorder.calculateThrottleNormalized 400 500 = 1 :=
  ⟨C7_throttle_monotone_saturating.1 50 500 100 500
      (by omega) (by omega) (by omega) (by omega) (by norm_num),
   C7_throttle_monotone_saturating.2 400 500 (by omega) (by omega) (by norm_num)⟩

/-- C8 counterexample: the line `STATUSFOO` is not one of the
documented command forms, yet the command processor *does* write a
reply (a full STATUS report), because classification is by prefix:
`command.startsWith("STATUS")` accepts any line beginning with
`STATUS`. -/
theorem C8_statusfoo_gets_reply_counterexample :
    Extended.processControlCommand Extended.CtrlState.init ("STATUSFOO".toList) =
      { state := Extended.CtrlState.init,
        replies := [.statusReply false 0 0], writes := [] } ∧
    [Recorder.SerialOut.statusReply false 0 0] ≠ ([] : List Recorder.SerialOut) :=
  ⟨rfl, by simp⟩

/-- C8 amended: every inbound line whose trimmed form starts with none
of the prefixes `CTRL,`, `MODE,`, `STATUS` produces no reply and leaves
the mode and target state unchanged; lines that carry one of those
prefixes may be answered and acted on even when they are not of the
documented form (prefix/substring classification). -/
theorem C8_unprefixed_lines_silently_dropped :
    ∀ st : Extended.CtrlState, ∀ line : List Char,
      ("CTRL,".toList).isPrefixOf (trimA line) = false →
      ("MODE,".toList).isPrefixOf (trimA line) = false →
      ("STATUS".toList).isPrefixOf (trimA line) = false →
      Extended.processControlCommand st line =
        { state := st, replies := [], writes := [] } := by
  intro st line h1 h2 h3
  unfold Extended.processControlCommand Extended.processTrimmedCommand
  rw [h1, h2, h3]
  rfl

/-- Witness for C8 amended at the line `HELLO`. -/
theorem C8_unprefixed_lines_silently_dropped_witness :
    Extended.processControlCommand Extended.CtrlState.init ("HELLO".toList) =
      { state := Extended.CtrlState.init, replies := [], writes := [] } :=
  C8_unprefixed_lines_silently_dropped Extended.CtrlState.init ("HELLO".toList)
    (by decide) (by decide) (by decide)

/-- C9 counterexample: on the throttle channel of `pwm_recorder.ino`,
after the trace rise@10, fall@20 only one rising edge has occurred (no
full cycle), yet `highTime = 10 ≠ 0`; extending the trace with
rise@110, fall@100010 (a legal alternating signal whose pulse grows)
reaches a state with `highTime = 99900 > period = 100` although both
hold measurements — the claimed invariant fails. -/
theorem C9_invariant_violated_counterexample :
    (Recorder.runThrottle Chan.init [Edge.rise 10, Edge.fall 20]).highTime = 10 ∧
    Recorder.risesIn [Edge.rise 10, Edge.fall 20] = 1 ∧
    (Recorder.runThrottle Chan.init
        [Edge.rise 10, Edge.fall 20, Edge.rise 110, Edge.fall 100010]).highTime
      = 99900 ∧
    (Recorder.runThrottle Chan.init
        [Edge.rise 10, Edge.fall 20, Edge.rise 110, Edge.fall 100010]).period = 100 ∧
    ¬ (99900 ≤ 100) := by
  decide

/-- C9 amended: on the throttle channel, both `highTime` and `period`
(indeed the whole state) keep their startup zeros while no rising edge
has occurred, and `period` (with `newCycle`) stays zero until a second
rising edge; but `highTime` becomes nonzero already after the first
rise–fall pair, before any full cycle, and `highTime ≤ period` is not
an invariant of the reachable states. -/
theorem C9_zero_until_first_rise :
    (∀ es : List Edge, Recorder.risesIn es = 0 →
        Recorder.runThrottle Chan.init es = Chan.init) ∧
    (∀ es : List Edge, Recorder.risesIn es ≤ 1 →
        (Recorder.runThrottle Chan.init es).period = 0 ∧
        (Recorder.runThrottle Chan.init es).newCycle = false) := by
  constructor
  · exact fun es h => runThrottle_no_rise_fixed es Chan.init h rfl
  · exact fun es h => runThrottle_le_one_rise es Chan.init h rfl rfl rfl

/-- Witness for C9 amended: two initial falling edges leave the
startup state; one rise followed by one fall still has `period = 0`. -/
theorem C9_zero_until_first_rise_witness :
    Recorder.runThrottle Chan.init [Edge.fall 3, Edge.fall 7] = Chan.init ∧
    (Recorder.runThrottle Chan.init [Edge.rise 5, Edge.fall 9]).period = 0 :=
  ⟨C9_zero_until_first_rise.1 [Edge.fall 3, Edge.fall 7] (by decide),
   (C9_zero_until_first_rise.2 [Edge.rise 5, Edge.fall 9] (by decide)).1⟩

/-- C10: processing `MODE,MANUAL` flips the mode flag to MANUAL and —
with the flag already cleared — synchronously emits the neutral
1500 µs pulse on both actuator pins (the emitted writes are exactly
`updateControlOutputs` of the already-MANUAL state); and the per-tick
path performs no servo write whenever the mode is MANUAL. -/
theorem C10_manual_neutral_pulse_and_no_tick_writes :
    (∀ st : Extended.CtrlState,
        (Extended.processControlCommand st
            ("MODE,MANUAL".toList)).state.autonomous_mode = false ∧
        (Extended.processControlCommand st ("MODE,MANUAL".toList)).writes =
          Extended.updateControlOutputs
            { autonomous_mode := false, target_steering := 0,
              target_throttle := 0 } ∧
        (Extended.processControlCommand st ("MODE,MANUAL".toList)).writes =
          [(Extended.STEERING_OUTPUT_PIN, Extended.SERVO_NEUTRAL_PULSE),
           (Extended.THROTTLE_OUTPUT_PIN, Extended.SERVO_NEUTRAL_PULSE)]) ∧
    (∀ isr : Extended.IsrSnapshot, ∀ ctrl : Extended.CtrlState, ∀ now : Nat,
        ctrl.autonomous_mode = false →
        (Extended.loopTick isr ctrl now).2.2 = []) := by
  constructor
  · intro st
    refine ⟨rfl, rfl, ?_⟩
    show Extended.updateControlOutputs ⟨false, 0, 0⟩ =
      [(Extended.STEERING_OUTPUT_PIN, Extended.SERVO_NEUTRAL_PULSE),
       (Extended.THROTTLE_OUTPUT_PIN, Extended.SERVO_NEUTRAL_PULSE)]
    norm_num [Extended.updateControlOutputs, Extended.arduinoMap, Extended.ratTrunc,
      Extended.SERVO_MIN_PULSE, Extended.SERVO_MAX_PULSE, Extended.SERVO_NEUTRAL_PULSE]
    decide
  · intro isr ctrl now h
    simp [Extended.loopTick, h]

/-- Witness for C10 at a concrete autonomous state and a concrete
manual-mode tick. -/
theorem C10_manual_neutral_pulse_and_no_tick_writes_witness :
    (Extended.processControlCommand
        { autonomous_mode := true, target_steering := 1, target_throttle := 1 }
        ("MODE,MANUAL".toList)).state.autonomous_mode = false ∧
    (Extended.loopTick ⟨1, 2, 3, 4, true, true⟩
        { autonomous_mode := false, target_steering := 1 / 2,
          target_throttle := 1 / 4 } 7).2.2 = [] :=
  ⟨(C10_manual_neutral_pulse_and_no_tick_writes.1
      { autonomous_mode := true, target_steering := 1, target_throttle := 1 }).1,
   C10_manual_neutral_pulse_and_no_tick_writes.2 ⟨1, 2, 3, 4, true, true⟩
      { autonomous_mode := false, target_steering := 1 / 2,
        target_throttle := 1 / 4 } 7 rfl⟩
